import Mathlib

/-!
Verification of the AI resume optimizer's core logic.

The program under study has three pieces of non-trivial logic:

* `_clean_latex_response` (backend/services/claude_service.py) — strips
  markdown code fences from generated text;
* `compile_latex_to_pdf` (backend/services/latex_service.py) — runs the
  `pdflatex` binary twice, parses the log for a page count and a fatal
  error excerpt, and returns a structured triple;
* `optimize_resume` (backend/services/claude_service.py) — the bounded-retry
  convergence loop orchestrating a generation client and the compiler.

Python strings are modelled as lists of characters (`Str`), which matches
Python's code-point view of `str`.  Python's `str.strip()` is modelled with
`Char.isWhitespace`.  External effects (the Anthropic client, the `pdflatex`
subprocess, the filesystem) are modelled as oracles: the loop's collaborators
are functions from the call index to an `Except`-outcome (`Except.error`
models a raised exception), and one `compile_latex_to_pdf` invocation is
parametrised by a `CompileWorld` recording what the subprocess runs, the log
file and the output PDF did.
-/

/-- A Python string, viewed as its sequence of code points. -/
abbrev Str := List Char

/-- The fence marker with language tag, the literal `"```latex"` (8 chars). -/
def fenceLatexMarker : Str := "```latex".toList

/-- The bare fence marker, the literal "```" (3 chars). -/
def fenceMarker : Str := "```".toList

/-- Python `str.strip()`: drop whitespace from both ends. -/
def pyStrip (text : Str) : Str :=
  ((text.dropWhile Char.isWhitespace).reverse.dropWhile Char.isWhitespace).reverse

/-- Embedding of `_clean_latex_response` (claude_service.py, lines 19-30):
if the text starts with "```latex" drop 8 chars, else if it starts with
"```" drop 3; then if it ends with "```" drop the last 3 (`text[:-3]`);
finally `strip()`. -/
def clean_latex_response (text : Str) : Str :=
  let t1 :=
    if fenceLatexMarker.isPrefixOf text then text.drop 8
    else if fenceMarker.isPrefixOf text then text.drop 3
    else text
  let t2 :=
    if fenceMarker.isSuffixOf t1 then t1.take (t1.length - 3)
    else t1
  pyStrip t2

example : clean_latex_response "```latex\nX\n```".toList = "X".toList := by decide
example : clean_latex_response "```\nX\n```".toList = "X".toList := by decide
example : clean_latex_response " ```x".toList = "```x".toList := by decide
example : clean_latex_response "```x".toList = "x".toList := by decide

/-! ## The document compiler adapter (latex_service.py) -/

/-- What one `subprocess.run` of pdflatex did: completed with some exit code,
or raised `TimeoutExpired`, `FileNotFoundError`, or another exception. -/
inductive PassOutcome where
  | completed (returncode : Int)
  | timedOut
  | notFound
  | exc (msg : Str)
deriving DecidableEq

/-- The external world one `compile_latex_to_pdf` call observes: the outcome
of each of the two pdflatex passes, the content of `resume.log` afterwards
(`none` = missing/unreadable), and the bytes of `resume.pdf` if it exists. -/
structure CompileWorld where
  pass1 : PassOutcome
  pass2 : PassOutcome
  log : Option Str
  pdf : Option (List Nat)
deriving DecidableEq

/-- The timeout (seconds) passed to each `subprocess.run` call (source: `timeout=60`). -/
def pdflatexTimeoutSeconds : Nat := 60

/-- An exception raised by a pdflatex pass (the three `except` arms of
`compile_latex_to_pdf`). -/
inductive PassAbort where
  | timedOut
  | notFound
  | exc (msg : Str)
deriving DecidableEq

/-- The exception, if any, one pass raises. -/
def passAbortOf : PassOutcome → Option PassAbort
  | .completed _ => none
  | .timedOut => some .timedOut
  | .notFound => some .notFound
  | .exc m => some (.exc m)

/-- The two-pass `for run_num in range(1, 3)` loop: pass 2 runs only when
pass 1 completed (with any exit code); the first raised exception aborts. -/
def passesAbort (w : CompileWorld) : Option PassAbort :=
  match passAbortOf w.pass1 with
  | some a => some a
  | none => passAbortOf w.pass2

/-- Numeric value of a digit string (Python `int` on the captured group). -/
def digitsToNat (ds : Str) : Nat :=
  ds.foldl (fun n c => n * 10 + (c.toNat - 48)) 0

/-- Try to match the tail of the regex `\((\d+) pages?` at the current point:
a literal open paren, one or more digits, then the literal " page". -/
def pageParenMatch (cs : Str) : Option Nat :=
  match cs with
  | '(' :: rest =>
    let ds := rest.takeWhile Char.isDigit
    if ds = [] then none
    else if " page".toList.isPrefixOf (rest.dropWhile Char.isDigit) then
      some (digitsToNat ds)
    else none
  | _ => none

/-- The non-greedy `.+?\(` part: consume at least one non-newline character,
then try the paren group at each successive position (smallest extent first,
as the regex engine backtracks). -/
def scanParen : Str → Option Nat
  | [] => none
  | c :: rest =>
    if c = '\n' then none
    else
      match pageParenMatch rest with
      | some n => some n
      | none => scanParen rest

/-- The literal regex prefix "Output written on " (18 characters). -/
def outputWrittenMarker : Str := "Output written on ".toList

/-- `re.search(r"Output written on .+?\((\d+) pages?", log)`: leftmost
starting position wins; at each position the literal prefix must match and
then `scanParen` looks for the page group on the same line. -/
def searchOutputWritten : Str → Option Nat
  | [] => none
  | c :: rest =>
    if outputWrittenMarker.isPrefixOf (c :: rest) then
      match scanParen (List.drop 18 (c :: rest)) with
      | some n => some n
      | none => searchOutputWritten rest
    else searchOutputWritten rest

/-- Embedding of `_parse_page_count` (latex_service.py, lines 25-38): read the
log (any failure, including a missing file, yields 0), search for the page
pattern, and default to 0 when there is no match. -/
def parse_page_count (log : Option Str) : Nat :=
  match log with
  | none => 0
  | some content =>
    match searchOutputWritten content with
    | some n => n
    | none => 0

example : parse_page_count (some "Output written on resume.pdf (1 page, 12 bytes).".toList) = 1 := by decide
example : parse_page_count (some "Output written on a.pdf (23 pages).".toList) = 23 := by decide
example : parse_page_count (some "no such line".toList) = 0 := by decide
example : parse_page_count none = 0 := by decide

/-- The fatal-error marker `"!"` that pdflatex prints at a fatal diagnostic. -/
def bangMarker : Str := "!".toList

/-- Scan the split log lines for the first line starting with "!" and return
it together with the following four lines (`lines[i:i+5]`). -/
def firstBangBlock : List Str → Option (List Str)
  | [] => none
  | l :: rest =>
    if bangMarker.isPrefixOf l then some (List.take 5 (l :: rest))
    else firstBangBlock rest

/-- The generic failure message used when no fatal marker is found. -/
def genericFailureMsg : Str := "PDF compilation failed.".toList

/-- Error-excerpt extraction of the no-PDF branch (latex_service.py, lines
112-121): default to the generic message; if the log exists, split it on
newlines and take the first "!" line plus the next four, joined by newlines. -/
def extractErrorExcerpt (log : Option Str) : Str :=
  match log with
  | none => genericFailureMsg
  | some content =>
    match firstBangBlock (List.splitOn '\n' content) with
    | some block => List.intercalate "\n".toList block
    | none => genericFailureMsg

/-- The fixed message returned when a pdflatex pass exceeds the timeout. -/
def timedOutMsg : Str := "LaTeX compilation timed out after 60 seconds.".toList

/-- The fixed message returned when the pdflatex binary is not found. -/
def notFoundMsg : Str := "pdflatex not found. Please ensure LaTeX is installed and in PATH.".toList

/-- The `(pdf_bytes, error_message, page_count)` triple
`compile_latex_to_pdf` returns. -/
structure CompileReturn where
  pdfBytes : Option (List Nat)
  errorMsg : Option Str
  pageCount : Nat
deriving DecidableEq

/-- Embedding of `compile_latex_to_pdf` (latex_service.py, lines 41-142):
run two pdflatex passes (an exception in either aborts to the matching
`except` arm); otherwise parse the page count from the log, and return
success with the PDF bytes if `resume.pdf` exists, else a failure whose
message is the extracted error excerpt and whose page count is 0. -/
def compile_latex_to_pdf (w : CompileWorld) (_latex : Str) : CompileReturn :=
  match passesAbort w with
  | some .timedOut => ⟨none, some timedOutMsg, 0⟩
  | some .notFound => ⟨none, some notFoundMsg, 0⟩
  | some (.exc m) => ⟨none, some ("Compilation error: ".toList ++ m), 0⟩
  | none =>
    let page_count := parse_page_count w.log
    match w.pdf with
    | some bytes => ⟨some bytes, none, page_count⟩
    | none => ⟨none, some (extractErrorExcerpt w.log), 0⟩

/-! ## The convergence loop (claude_service.py) -/

/-- The external collaborators of `optimize_resume`, as oracles indexed by the
call number (0-based, counted separately per collaborator).  `Except.error e`
models the call raising an exception whose `str` is `e`; the request payloads
(prompts, transcript, source text) do not constrain the oracle, which may
answer arbitrarily. -/
structure Env where
  gen : Nat → Except Str Str
  compile : Nat → Except Str CompileReturn

/-- Instrumentation: how many calls of each kind a run has made.  Fix and
shrink calls are also generation calls, so they are counted in both
`genCalls` and their own counter. -/
structure Stats where
  genCalls : Nat
  fixCalls : Nat
  shrinkCalls : Nat
  compileCalls : Nat
deriving DecidableEq

/-- All-zero counters at the start of a run. -/
def initStats : Stats := ⟨0, 0, 0, 0⟩

/-- `MAX_FIX_ATTEMPTS` (claude_service.py, line 15). -/
def MAX_FIX_ATTEMPTS : Nat := 2

/-- `MAX_PAGE_SHRINK_ATTEMPTS` (claude_service.py, line 16). -/
def MAX_PAGE_SHRINK_ATTEMPTS : Nat := 2

/-- Python truthiness of a `str | None` value: `None` and `""` are falsy. -/
def pyTruthy : Option Str → Bool
  | none => false
  | some s => s ≠ []

/-- The post-call logic of `_try_compile` (claude_service.py, lines 54-63)
on the adapter's triple: `if error: return error, 0`; otherwise the success
log line evaluates `len(pdf_bytes)` — a `TypeError` (modelled as
`Except.error`) if the bytes are `None` — and then `return None, page_count`. -/
def try_compile_decision (r : CompileReturn) : Except Str (Option Str × Nat) :=
  if pyTruthy r.errorMsg then Except.ok (r.errorMsg, 0)
  else
    match r.pdfBytes with
    | none => Except.error "object of type NoneType has no len()".toList
    | some _ => Except.ok (none, r.pageCount)

/-- One `_try_compile` step inside the loop: invoke the compiler oracle
(bumping the compile counter) and apply `_try_compile`'s decision; a raised
exception propagates. -/
def try_compile (env : Env) (s : Stats) : Except Str (Option Str × Nat) × Stats :=
  let s1 := { s with compileCalls := s.compileCalls + 1 }
  match env.compile s.compileCalls with
  | Except.error e => (Except.error e, s1)
  | Except.ok r => (try_compile_decision r, s1)

/-- The initial generation call of Phase 1 (claude_service.py, lines 164-177);
the raw text is cleaned at the call site, as in the source. -/
def draft_call (env : Env) (s : Stats) : Except Str Str × Stats :=
  (env.gen s.genCalls, { s with genCalls := s.genCalls + 1 })

/-- `_ask_claude_to_fix` (claude_service.py, lines 66-99): one generation
call whose response is cleaned with `_clean_latex_response`. -/
def ask_claude_to_fix (env : Env) (s : Stats) : Except Str Str × Stats :=
  let s1 := { s with genCalls := s.genCalls + 1, fixCalls := s.fixCalls + 1 }
  match env.gen s.genCalls with
  | Except.error e => (Except.error e, s1)
  | Except.ok t => (Except.ok (clean_latex_response t), s1)

/-- `_ask_claude_to_shrink` (claude_service.py, lines 102-136): one
generation call whose response is cleaned; the current page count appears
only in the prompt text, which the oracle abstracts. -/
def ask_claude_to_shrink (env : Env) (s : Stats) : Except Str Str × Stats :=
  let s1 := { s with genCalls := s.genCalls + 1, shrinkCalls := s.shrinkCalls + 1 }
  match env.gen s.genCalls with
  | Except.error e => (Except.error e, s1)
  | Except.ok t => (Except.ok (clean_latex_response t), s1)

/-- Phase 2, the compile-test/auto-fix loop (claude_service.py, lines
189-207), by remaining attempts.  With fuel `n+1`: compile; on success break
with that page count; on failure ask for a fix and recurse.  With fuel `0`
(the `for`-`else` arm reached after `MAX_FIX_ATTEMPTS` full iterations):
compile one last time and return its page count regardless of the error. -/
def fix_phase (env : Env) : Nat → Str → Stats → Except Str (Str × Nat) × Stats
  | 0, latex, s =>
    (match try_compile env s with
     | (Except.error e, s1) => (Except.error e, s1)
     | (Except.ok (_, pc), s1) => (Except.ok (latex, pc), s1))
  | n + 1, latex, s =>
    (match try_compile env s with
     | (Except.error e, s1) => (Except.error e, s1)
     | (Except.ok (none, pc), s1) => (Except.ok (latex, pc), s1)
     | (Except.ok (some _, _), s1) =>
       match ask_claude_to_fix env s1 with
       | (Except.error e, s2) => (Except.error e, s2)
       | (Except.ok t, s2) => fix_phase env n t s2)

/-- Phase 3, the page-shrink loop (claude_service.py, lines 215-236), by
remaining attempts.  Each iteration: one shrink call, recompile; if that
fails, one nested fix call and a further recompile whose error is discarded
(`_, page_count = ...`); then break when `page_count <= 1`, else recurse.
Fuel `0` is the `for`-`else` arm: give up, keeping the current candidate. -/
def shrink_phase (env : Env) : Nat → Str → Nat → Stats → Except Str (Str × Nat) × Stats
  | 0, latex, pc, s => (Except.ok (latex, pc), s)
  | n + 1, _latex, _pc, s =>
    (match ask_claude_to_shrink env s with
     | (Except.error e, s1) => (Except.error e, s1)
     | (Except.ok t, s1) =>
       match try_compile env s1 with
       | (Except.error e, s2) => (Except.error e, s2)
       | (Except.ok (some _, _), s2) =>
         (match ask_claude_to_fix env s2 with
          | (Except.error e, s3) => (Except.error e, s3)
          | (Except.ok t2, s3) =>
            match try_compile env s3 with
            | (Except.error e, s4) => (Except.error e, s4)
            | (Except.ok (_, pc2), s4) =>
              if pc2 ≤ 1 then (Except.ok (t2, pc2), s4)
              else shrink_phase env n t2 pc2 s4)
       | (Except.ok (none, pc1), s2) =>
         if pc1 ≤ 1 then (Except.ok (t, pc1), s2)
         else shrink_phase env n t pc1 s2)

/-- The body of `optimize_resume`'s `try:` block: initial draft (cleaned),
fix phase, and — only when the resulting page count exceeds 1 — the shrink
phase.  The original latex and job description flow only into prompt text,
which the generation oracle abstracts. -/
def optimize_core (env : Env) : Except Str (Str × Nat) × Stats :=
  match draft_call env initStats with
  | (Except.error e, s1) => (Except.error e, s1)
  | (Except.ok draft, s1) =>
    match fix_phase env MAX_FIX_ATTEMPTS (clean_latex_response draft) s1 with
    | (Except.error e, s2) => (Except.error e, s2)
    | (Except.ok (t, pc), s2) =>
      if pc > 1 then shrink_phase env MAX_PAGE_SHRINK_ATTEMPTS t pc s2
      else (Except.ok (t, pc), s2)

/-- The dict `optimize_resume` returns: keys `optimized_latex`,
`optimization_summary`, `success`. -/
structure OptResult where
  optimized_latex : Str
  optimization_summary : Str
  success : Bool
deriving DecidableEq

/-- The fixed success summary string (claude_service.py, line 245). -/
def successSummary : Str := "Resume optimized successfully for the target position.".toList

/-- The prefix of the failure summary (claude_service.py, line 255). -/
def failSummaryPrefix : Str := "Optimization failed: ".toList

/-- Embedding of `optimize_resume` (claude_service.py, lines 139-257): run
the core; any raised exception is caught by the `except Exception` handler,
which returns the original input text, a summary embedding the exception
message, and `success=False`; otherwise the last candidate is returned with
the fixed success summary and `success=True`.  The call counters are
returned alongside for instrumentation. -/
def optimize_resume (env : Env) (latex : Str) (_job_description : Str) : OptResult × Stats :=
  match optimize_core env with
  | (Except.ok (t, _), s) => (⟨t, successSummary, true⟩, s)
  | (Except.error e, s) => (⟨latex, failSummaryPrefix ++ e, false⟩, s)

/-! ## Helper lemmas -/

/-- A text starting with the tagged fence marker also starts with the bare one. -/
theorem fence_of_fenceLatex {T : Str} (h : fenceLatexMarker.isPrefixOf T = true) :
    fenceMarker.isPrefixOf T = true := by
  have h1 := List.isPrefixOf_iff_prefix.mp h
  have h2 : fenceMarker <+: fenceLatexMarker := ⟨"latex".toList, by decide⟩
  exact List.isPrefixOf_iff_prefix.mpr (h2.trans h1)

/-- On text with no leading and no trailing fence marker, the sanitizer only trims. -/
theorem clean_no_fence (T : Str) (h1 : fenceMarker.isPrefixOf T = false)
    (h2 : fenceMarker.isSuffixOf T = false) :
    clean_latex_response T = pyStrip T := by
  have hlx : fenceLatexMarker.isPrefixOf T = false := by
    cases h : fenceLatexMarker.isPrefixOf T with
    | false => rfl
    | true => rw [fence_of_fenceLatex h] at h1; exact absurd h1 (by simp)
  simp [clean_latex_response, hlx, h1, h2]

/-- When no line carries the fatal marker, the scan finds nothing. -/
theorem firstBangBlock_of_all_not (ls : List Str)
    (h : ∀ l ∈ ls, bangMarker.isPrefixOf l = false) :
    firstBangBlock ls = none := by
  induction ls with
  | nil => rfl
  | cons a ls ih =>
    have ha := h a (by simp)
    simp [firstBangBlock, ha]
    exact ih fun l hl => h l (by simp [hl])

/-- The scan returns the first marked line together with the four lines after it. -/
theorem firstBangBlock_of_first (pre : List Str) (l : Str) (rest : List Str)
    (hpre : ∀ p ∈ pre, bangMarker.isPrefixOf p = false)
    (hl : bangMarker.isPrefixOf l = true) :
    firstBangBlock (pre ++ l :: rest) = some (List.take 5 (l :: rest)) := by
  induction pre with
  | nil => simp [firstBangBlock, hl]
  | cons a pre ih =>
    have ha := hpre a (by simp)
    simp [firstBangBlock, ha]
    exact ih fun p hp => hpre p (by simp [hp])

/-! ## Claims -/

/-- Claim C1: if the compiler adapter reports a compile failure on every
attempt (a non-empty error message, page count 0, no PDF) and the generation
client always answers, then `optimize_resume` makes at most
`MAX_FIX_ATTEMPTS` (2) fix calls, returns without raising, and the result
carries the last (still-broken) cleaned candidate — the response to the
second fix call — with `success = true`, not the original input. -/
theorem claim_C1_fix_loop_bounds (env : Env) (latex jd : Str) (g m : Nat → Str)
    (hg : ∀ n, env.gen n = Except.ok (g n))
    (hc : ∀ n, env.compile n = Except.ok ⟨none, some (m n), 0⟩)
    (hm : ∀ n, m n ≠ []) :
    (optimize_resume env latex jd).2.fixCalls ≤ MAX_FIX_ATTEMPTS ∧
    (optimize_resume env latex jd).1 =
      ⟨clean_latex_response (g 2), successSummary, true⟩ := by
  have hcore : optimize_core env =
      (Except.ok (clean_latex_response (g 2), 0), ⟨3, 2, 0, 3⟩) := by
    simp [optimize_core, draft_call, fix_phase, try_compile, try_compile_decision,
          pyTruthy, ask_claude_to_fix, initStats, MAX_FIX_ATTEMPTS, hg, hc, hm]
  unfold optimize_resume
  rw [hcore]
  exact ⟨Nat.le_refl 2, rfl⟩

/-- Oracle pair witnessing claim C1: the generator always returns "x", the
adapter always fails with "err". -/
def envC1 : Env :=
  ⟨fun _ => Except.ok "x".toList,
   fun _ => Except.ok ⟨none, some "err".toList, 0⟩⟩

/-- Witness for claim C1 at a concrete always-failing adapter. -/
theorem claim_C1_fix_loop_bounds_witness :
    (optimize_resume envC1 "orig".toList "jd".toList).2.fixCalls ≤ MAX_FIX_ATTEMPTS ∧
    (optimize_resume envC1 "orig".toList "jd".toList).1 =
      ⟨clean_latex_response "x".toList, successSummary, true⟩ :=
  claim_C1_fix_loop_bounds envC1 "orig".toList "jd".toList
    (fun _ => "x".toList) (fun _ => "err".toList)
    (fun _ => rfl) (fun _ => rfl) (fun _ => (by decide : "err".toList ≠ []))

/-- Claim C2: if every compile succeeds (so the fix phase ends at the first
check without any fix call) but always reports a page count above 1, then
`optimize_resume` makes at most `MAX_PAGE_SHRINK_ATTEMPTS` (2) shrink calls
and no fix call, and returns `success = true` with the last cleaned
candidate — never `success = false` merely because the page count stayed
above 1. -/
theorem claim_C2_shrink_loop_bounds (env : Env) (latex jd : Str)
    (g : Nat → Str) (b : Nat → List Nat) (p : Nat → Nat)
    (hg : ∀ n, env.gen n = Except.ok (g n))
    (hc : ∀ n, env.compile n = Except.ok ⟨some (b n), none, p n⟩)
    (hp : ∀ n, 1 < p n) :
    (optimize_resume env latex jd).2.shrinkCalls ≤ MAX_PAGE_SHRINK_ATTEMPTS ∧
    (optimize_resume env latex jd).2.fixCalls = 0 ∧
    (optimize_resume env latex jd).1 =
      ⟨clean_latex_response (g 2), successSummary, true⟩ := by
  have hcore : optimize_core env =
      (Except.ok (clean_latex_response (g 2), p 2), ⟨3, 0, 2, 3⟩) := by
    simp [optimize_core, draft_call, fix_phase, shrink_phase, try_compile,
          try_compile_decision, pyTruthy, ask_claude_to_shrink, initStats,
          MAX_FIX_ATTEMPTS, MAX_PAGE_SHRINK_ATTEMPTS, hg, hc, hp]
  unfold optimize_resume
  rw [hcore]
  exact ⟨Nat.le_refl 2, rfl, rfl⟩

/-- Oracle pair witnessing claim C2: compiles always succeed at 3 pages. -/
def envC2 : Env :=
  ⟨fun _ => Except.ok "y".toList,
   fun _ => Except.ok ⟨some [], none, 3⟩⟩

/-- Witness for claim C2 at a concrete always-3-pages adapter. -/
theorem claim_C2_shrink_loop_bounds_witness :
    (optimize_resume envC2 "orig".toList "jd".toList).2.shrinkCalls ≤ MAX_PAGE_SHRINK_ATTEMPTS ∧
    (optimize_resume envC2 "orig".toList "jd".toList).2.fixCalls = 0 ∧
    (optimize_resume envC2 "orig".toList "jd".toList).1 =
      ⟨clean_latex_response "y".toList, successSummary, true⟩ :=
  claim_C2_shrink_loop_bounds envC2 "orig".toList "jd".toList
    (fun _ => "y".toList) (fun _ => []) (fun _ => 3)
    (fun _ => rfl) (fun _ => rfl) (fun _ => (by decide : (1 : Nat) < 3))

/-- Claim C3: whenever a step inside `optimize_resume` raises (the core
computation ends in `Except.error e` — for instance the generation client
raising on its first call), the function returns `success = false`, the
document text is exactly the original unmodified input, and the summary is
the failure prefix followed by the exception message. -/
theorem claim_C3_exception_fallback (env : Env) (latex jd e : Str) (s : Stats)
    (h : optimize_core env = (Except.error e, s)) :
    optimize_resume env latex jd = (⟨latex, failSummaryPrefix ++ e, false⟩, s) := by
  unfold optimize_resume
  rw [h]

/-- Oracle pair witnessing claim C3: the generation client raises "boom" on
its very first call. -/
def envC3 : Env :=
  ⟨fun _ => Except.error "boom".toList,
   fun _ => Except.ok ⟨some [], none, 1⟩⟩

/-- Witness for claim C3 at a generator that raises on its first call. -/
theorem claim_C3_exception_fallback_witness :
    optimize_resume envC3 "orig".toList "jd".toList =
      (⟨"orig".toList, failSummaryPrefix ++ "boom".toList, false⟩, ⟨1, 0, 0, 0⟩) :=
  claim_C3_exception_fallback envC3 "orig".toList "jd".toList "boom".toList
    ⟨1, 0, 0, 0⟩ rfl

/-- Claim C4 counterexample: the sanitizer is not idempotent.  On the input
" ```x" the first pass only trims, exposing a leading fence marker that a
second pass then strips, so sanitize(sanitize(T)) differs from sanitize(T). -/
theorem claim_C4_idempotence_cex :
    clean_latex_response (clean_latex_response " ```x".toList) ≠
      clean_latex_response " ```x".toList := by decide

/-- Claim C4 (amended): the sanitizer is a no-op on already-clean text —
text that is whitespace-trimmed and carries no leading and no trailing fence
marker — and is therefore idempotent on such text; unrestricted idempotence
fails (see the counterexample) because trimming can expose a fence marker. -/
theorem claim_C4_clean_noop (T : Str)
    (h1 : fenceMarker.isPrefixOf T = false)
    (h2 : fenceMarker.isSuffixOf T = false)
    (h3 : pyStrip T = T) :
    clean_latex_response T = T := by
  rw [clean_no_fence T h1 h2, h3]

/-- Witness for the amended claim C4 on the clean text "hello". -/
theorem claim_C4_clean_noop_witness :
    clean_latex_response "hello".toList = "hello".toList :=
  claim_C4_clean_noop "hello".toList (by decide) (by decide) (by decide)

/-- World witnessing claim C5's counterexample: both passes complete, the
log exists but has no "Output written on" line, and a PDF exists. -/
def worldC5 : CompileWorld :=
  ⟨PassOutcome.completed 0, PassOutcome.completed 0, some [], some []⟩

/-- Claim C5 counterexample: "page_count is 0 iff failure" is refuted by a
successful compile (PDF present, no error) whose log lacks a parsable page
count — the adapter then reports success with page_count 0. -/
theorem claim_C5_zero_iff_failure_cex :
    ¬ ((compile_latex_to_pdf worldC5 []).pageCount = 0 ↔
       (compile_latex_to_pdf worldC5 []).errorMsg.isSome = true) := by decide

/-- Claim C5 (amended): every failure outcome of the compiler adapter has
page_count 0; the converse fails, since a success outcome also reports
page_count 0 when the log lacks a parsable page-count line. -/
theorem claim_C5_failure_page_count_zero (w : CompileWorld) (latex : Str)
    (h : (compile_latex_to_pdf w latex).errorMsg.isSome = true) :
    (compile_latex_to_pdf w latex).pageCount = 0 := by
  unfold compile_latex_to_pdf at h ⊢
  rcases hab : passesAbort w with _ | a
  · rcases hp : w.pdf with _ | bytes
    · simp [hab, hp]
    · simp [hab, hp] at h
  · cases a <;> simp [hab]

/-- Witness for the amended claim C5 at a failing compile (no PDF). -/
theorem claim_C5_failure_page_count_zero_witness :
    (compile_latex_to_pdf ⟨PassOutcome.completed 1, PassOutcome.completed 1, some [], none⟩
      []).pageCount = 0 :=
  claim_C5_failure_page_count_zero
    ⟨PassOutcome.completed 1, PassOutcome.completed 1, some [], none⟩ [] (by decide)

/-- Claim C6: if the generation client answers the initial draft call and the
very first compile succeeds with page_count 1, then `optimize_resume` makes
exactly one generation call (no fix calls, no shrink calls) and returns
`success = true`. -/
theorem claim_C6_happy_path (env : Env) (latex jd : Str) (t0 : Str) (b : List Nat)
    (hg : env.gen 0 = Except.ok t0)
    (hc : env.compile 0 = Except.ok ⟨some b, none, 1⟩) :
    (optimize_resume env latex jd).2.genCalls = 1 ∧
    (optimize_resume env latex jd).2.fixCalls = 0 ∧
    (optimize_resume env latex jd).2.shrinkCalls = 0 ∧
    (optimize_resume env latex jd).1.success = true := by
  have hcore : optimize_core env =
      (Except.ok (clean_latex_response t0, 1), ⟨1, 0, 0, 1⟩) := by
    simp [optimize_core, draft_call, fix_phase, try_compile, try_compile_decision,
          pyTruthy, initStats, MAX_FIX_ATTEMPTS, hg, hc]
  unfold optimize_resume
  rw [hcore]
  exact ⟨rfl, rfl, rfl, rfl⟩

/-- Oracle pair witnessing claim C6: first compile succeeds with one page. -/
def envC6 : Env :=
  ⟨fun _ => Except.ok "t".toList,
   fun _ => Except.ok ⟨some [1], none, 1⟩⟩

/-- Witness for claim C6 at a concrete happy-path oracle pair. -/
theorem claim_C6_happy_path_witness :
    (optimize_resume envC6 "orig".toList "jd".toList).2.genCalls = 1 ∧
    (optimize_resume envC6 "orig".toList "jd".toList).2.fixCalls = 0 ∧
    (optimize_resume envC6 "orig".toList "jd".toList).2.shrinkCalls = 0 ∧
    (optimize_resume envC6 "orig".toList "jd".toList).1.success = true :=
  claim_C6_happy_path envC6 "orig".toList "jd".toList "t".toList [1] rfl rfl

/-- Claim C7: when a pdflatex pass exceeds the timeout — whether on the first
pass or on the second after a completed first — the compile attempt returns
the failure triple with the fixed "timed out" message (independent of the
log), no PDF, and page_count 0; and `_try_compile`'s decision on that triple
is the same `(error, 0)` shape as any other compile failure, so it feeds the
fix sub-loop.  (The wall-clock bound itself, `timeout=60`, is recorded as
`pdflatexTimeoutSeconds`; exceeding it is modelled by
`PassOutcome.timedOut`.) -/
theorem claim_C7_timeout_outcome (w : CompileWorld) (latex : Str)
    (h : w.pass1 = PassOutcome.timedOut ∨
         ((∃ rc, w.pass1 = PassOutcome.completed rc) ∧ w.pass2 = PassOutcome.timedOut)) :
    compile_latex_to_pdf w latex = ⟨none, some timedOutMsg, 0⟩ ∧
    try_compile_decision (compile_latex_to_pdf w latex) =
      Except.ok (some timedOutMsg, 0) := by
  have hab : passesAbort w = some PassAbort.timedOut := by
    rcases h with h1 | ⟨⟨rc, h1⟩, h2⟩
    · simp [passesAbort, h1, passAbortOf]
    · simp [passesAbort, h1, h2, passAbortOf]
  have hc : compile_latex_to_pdf w latex = ⟨none, some timedOutMsg, 0⟩ := by
    simp [compile_latex_to_pdf, hab]
  exact ⟨hc, by rw [hc]; rfl⟩

/-- Witness for claim C7: the first pass times out (log and PDF absent). -/
theorem claim_C7_timeout_outcome_witness :
    compile_latex_to_pdf ⟨PassOutcome.timedOut, PassOutcome.completed 0, none, none⟩ [] =
      ⟨none, some timedOutMsg, 0⟩ ∧
    try_compile_decision
      (compile_latex_to_pdf ⟨PassOutcome.timedOut, PassOutcome.completed 0, none, none⟩ []) =
      Except.ok (some timedOutMsg, 0) :=
  claim_C7_timeout_outcome ⟨PassOutcome.timedOut, PassOutcome.completed 0, none, none⟩ []
    (Or.inl rfl)

/-- Claim C8: when both passes run to completion and the expected PDF does
not exist, the adapter fails with: the first log line beginning with the
fatal marker "!" plus the following four lines, joined by newlines, if such
a line exists; and the generic "PDF compilation failed." message if no line
of the log starts with the marker. -/
theorem claim_C8_error_excerpt (w : CompileWorld) (latex content : Str)
    (hlog : w.log = some content)
    (hab : passesAbort w = none)
    (hpdf : w.pdf = none) :
    ((∀ l ∈ List.splitOn '\n' content, bangMarker.isPrefixOf l = false) →
      compile_latex_to_pdf w latex = ⟨none, some genericFailureMsg, 0⟩) ∧
    (∀ pre l rest, List.splitOn '\n' content = pre ++ l :: rest →
      (∀ p ∈ pre, bangMarker.isPrefixOf p = false) →
      bangMarker.isPrefixOf l = true →
      compile_latex_to_pdf w latex =
        ⟨none, some (List.intercalate "\n".toList (List.take 5 (l :: rest))), 0⟩) := by
  have hres : compile_latex_to_pdf w latex =
      ⟨none, some (extractErrorExcerpt w.log), 0⟩ := by
    simp [compile_latex_to_pdf, hab, hpdf]
  constructor
  · intro hall
    rw [hres, hlog]
    simp [extractErrorExcerpt, firstBangBlock_of_all_not _ hall]
  · intro pre l rest hdec hpre hl
    rw [hres, hlog]
    simp [extractErrorExcerpt, hdec, firstBangBlock_of_first pre l rest hpre hl]

/-- World witnessing claim C8: both passes complete (non-zero exit), no PDF,
and a log whose second line is the fatal diagnostic. -/
def worldC8 : CompileWorld :=
  ⟨PassOutcome.completed 1, PassOutcome.completed 1,
   some "pre\n! Undefined control sequence.\nl.1\na\nb\nc\ntail".toList, none⟩

/-- Witness for claim C8: the excerpt is the "!" line plus the next four. -/
theorem claim_C8_error_excerpt_witness :
    compile_latex_to_pdf worldC8 [] =
      ⟨none,
       some (List.intercalate "\n".toList
         (List.take 5 ("! Undefined control sequence.".toList ::
           ["l.1".toList, "a".toList, "b".toList, "c".toList, "tail".toList]))),
       0⟩ :=
  (claim_C8_error_excerpt worldC8 []
      "pre\n! Undefined control sequence.\nl.1\na\nb\nc\ntail".toList
      rfl (by decide) rfl).2
    ["pre".toList] "! Undefined control sequence.".toList
    ["l.1".toList, "a".toList, "b".toList, "c".toList, "tail".toList]
    (by decide) (by decide) (by decide)

/-- Claim C9: the sanitizer strips fences: "```latex\nX\n```" yields "X", the
bare variant "```\nX\n```" also yields "X", and any text with no leading and
no trailing fence marker comes back exactly whitespace-trimmed. -/
theorem claim_C9_fence_stripping :
    clean_latex_response "```latex\nX\n```".toList = "X".toList ∧
    clean_latex_response "```\nX\n```".toList = "X".toList ∧
    ∀ T : Str, fenceMarker.isPrefixOf T = false → fenceMarker.isSuffixOf T = false →
      clean_latex_response T = pyStrip T :=
  ⟨by decide, by decide, fun T h1 h2 => clean_no_fence T h1 h2⟩

/-- Witness for claim C9's universally quantified part on " hi ". -/
theorem claim_C9_fence_stripping_witness :
    clean_latex_response " hi ".toList = pyStrip " hi ".toList ∧
    pyStrip " hi ".toList = "hi".toList :=
  ⟨claim_C9_fence_stripping.2.2 " hi ".toList (by decide) (by decide), by decide⟩

/-- Claim C10: `optimize_resume` is total at its public interface — for every
behavior of the generation and compiler oracles, including raising, it
returns an `OptResult` (exactly the fields `optimized_latex`,
`optimization_summary`, `success : Bool`) that is either a success carrying
the fixed success summary, or a failure carrying the original input text and
a summary embedding the exception message; no exception propagates. -/
theorem claim_C10_total_interface (env : Env) (latex jd : Str) :
    (∃ t, (optimize_resume env latex jd).1 = ⟨t, successSummary, true⟩) ∨
    (∃ e, (optimize_resume env latex jd).1 = ⟨latex, failSummaryPrefix ++ e, false⟩) := by
  unfold optimize_resume
  rcases h : optimize_core env with ⟨r, s⟩
  cases r with
  | ok v => exact Or.inl ⟨v.1, rfl⟩
  | error e => exact Or.inr ⟨e, rfl⟩
